import Mathlib

/-!
Verification of `scripts/download-models.py`: a command-line tool that
downloads a model from the Hugging Face Hub into a directory resolved from
the `MODELS_DIR` environment variable (default `/models`) and a required
`--output` argument.

The script is embedded shallowly: its observable effects (printed lines,
the directory-creation call, the delegated `snapshot_download` call, the
process exit code) are recorded as an explicit event trace, and the local
filesystem is modelled as the set of existing directory paths (a list of
normalized path strings).  Exceptional outcomes of the two effectful calls
(`Path.mkdir` and `snapshot_download`) are supplied as oracles of type
`Option String` (`none` = normal return, `some cause` = an exception whose
message is `cause`), matching the `try`/`except Exception` boundary of the
script.
-/

/-- Observable effects of one process run of the script. -/
inductive Event where
  /-- A line printed to stdout. -/
  | print (s : String)
  /-- The `Path(output_dir).mkdir(parents=True, exist_ok=True)` call. -/
  | mkdirCall (path : String)
  /-- The delegated `snapshot_download(repo_id=…, local_dir=…,
  local_dir_use_symlinks=…, resume_download=…)` call with its arguments. -/
  | snapshotDownload (repo_id : String) (local_dir : String)
      (local_dir_use_symlinks : Bool) (resume_download : Bool)
  deriving DecidableEq, Repr

/-- Outcome of one process run: the event trace in order, the final set of
existing directories, and the process exit code. -/
structure RunResult where
  events : List Event
  fs : List String
  exitCode : Nat
  deriving DecidableEq, Repr

/-- Whether a path string starts with the POSIX separator, i.e.
`p.startswith("/")`. -/
def startsWithSlash (p : String) : Bool :=
  match p.data with
  | [] => false
  | c :: _ => c = '/'

/-- Whether a path string ends with the POSIX separator, i.e.
`p.endswith("/")`. -/
def endsWithSlash (p : String) : Bool :=
  match p.data.getLast? with
  | some c => c = '/'
  | none => false

/-- Split a character list on `/`, accumulating the current segment:
the structural counterpart of `p.split("/")`. -/
def splitOnSlashAux : List Char → String → List String
  | [], acc => [acc]
  | c :: cs, acc =>
      if c = '/' then acc :: splitOnSlashAux cs ""
      else splitOnSlashAux cs (acc.push c)

/-- `p.split("/")`: the segments of `p` between separators. -/
def splitOnSlash (p : String) : List String :=
  splitOnSlashAux p.data ""

/-- Path components of a POSIX path string, ignoring empty segments
(so `/a//b/` has components `["a", "b"]`, as `pathlib` normalizes). -/
def pathComponents (p : String) : List String :=
  (splitOnSlash p).filter (fun c => c ≠ "")

/-- Rebuild a path string from an absolute flag and components. -/
def joinComponents (abs : Bool) (cs : List String) : String :=
  (if abs then "/" else "") ++ String.intercalate "/" cs

/-- Normalized form of a path: loses duplicate and trailing separators. -/
def normPath (p : String) : String :=
  joinComponents (startsWithSlash p) (pathComponents p)

/-- The normalized path of every ancestor of `p` (including `p` itself),
outermost first: `ancestorPaths "/a/b" = ["/a", "/a/b"]`.  These are the
directories `Path(p).mkdir(parents=True, …)` guarantees to exist. -/
def ancestorPaths (p : String) : List String :=
  let cs := pathComponents p
  (List.range cs.length).map (fun i => joinComponents (startsWithSlash p) (cs.take (i + 1)))

/-- Whether directory `p` exists in the modelled filesystem. -/
def dirExists (fs : List String) (p : String) : Bool :=
  fs.contains (normPath p)

/-- Add a directory to the filesystem if it is not already present. -/
def insertDir (fs : List String) (d : String) : List String :=
  if d ∈ fs then fs else fs ++ [d]

/-- Effect of `Path(p).mkdir(parents=True, exist_ok=True)` on the
filesystem when the call returns normally: every missing ancestor of `p`
is created, outermost first; nothing is raised for pre-existing
directories because `exist_ok=True`. -/
def mkdirAll (fs : List String) (p : String) : List String :=
  List.foldl insertDir fs (ancestorPaths p)

/-- `os.path.join(a, b)` for POSIX paths with two arguments: an absolute
second argument discards the first; otherwise the parts are concatenated,
inserting a separator unless `a` is empty or already ends in one. -/
def os_path_join (a b : String) : String :=
  if startsWithSlash b then b
  else if a.data.isEmpty || endsWithSlash a then a ++ b
  else a ++ "/" ++ b

/-- `download_model(model_name, output_dir)` from the script, as a pure
function of the two arguments, the initial filesystem, and the oracles for
the two effectful calls inside its `try` block. -/
def download_model (model_name : String) (output_dir : String)
    (fs : List String) (mkdirErr : Option String) (downloadErr : Option String) :
    RunResult :=
  let ev0 : List Event := [Event.print s!"Downloading {model_name} to {output_dir}..."]
  match mkdirErr with
  | some cause =>
      { events := ev0 ++ [Event.mkdirCall output_dir,
          Event.print s!"Error downloading {model_name}: {cause}"],
        fs := fs,
        exitCode := 1 }
  | none =>
      match downloadErr with
      | some cause =>
          { events := ev0 ++ [Event.mkdirCall output_dir,
              Event.snapshotDownload model_name output_dir false true,
              Event.print s!"Error downloading {model_name}: {cause}"],
            fs := mkdirAll fs output_dir,
            exitCode := 1 }
      | none =>
          { events := ev0 ++ [Event.mkdirCall output_dir,
              Event.snapshotDownload model_name output_dir false true,
              Event.print s!"Successfully downloaded {model_name}"],
            fs := mkdirAll fs output_dir,
            exitCode := 0 }

/-- `main()` from the script.  `envModelsDir` is the value of the
`MODELS_DIR` environment variable (`none` when unset); `modelArg` and
`outputArg` are the values of `--model` and `--output` (`none` when the
flag is omitted, in which case `argparse` prints a usage message and exits
with status 2 before any filesystem or network operation). -/
def main_run (envModelsDir : Option String)
    (modelArg : Option String) (outputArg : Option String)
    (fs : List String) (mkdirErr : Option String) (downloadErr : Option String) :
    RunResult :=
  match modelArg, outputArg with
  | some m, some o =>
      let models_dir := Option.getD envModelsDir "/models"
      let output_path := os_path_join models_dir o
      download_model m output_path fs mkdirErr downloadErr
  | _, _ => { events := [], fs := fs, exitCode := 2 }

/-- The destination path the script resolves from the environment and the
`--output` argument, as the spec words it: `join(base_dir, output)` with
`base_dir` equal to `MODELS_DIR` when set and `/models` otherwise. -/
def resolvedDest (envModelsDir : Option String) (o : String) : String :=
  os_path_join (Option.getD envModelsDir "/models") o

/-- Recognizer for the delegated download call in a trace. -/
def isSnapshotCall : Event → Bool
  | Event.snapshotDownload _ _ _ _ => true
  | _ => false

/-- The first directory the run attempts to create, if any. -/
def destOf (r : RunResult) : Option String :=
  r.events.findSome? (fun e =>
    match e with
    | Event.mkdirCall p => some p
    | _ => none)

theorem main_run_some (env : Option String) (m o : String) (fs : List String)
    (mk dl : Option String) :
    main_run env (some m) (some o) fs mk dl
      = download_model m (resolvedDest env o) fs mk dl := rfl

theorem mem_foldl_insertDir (l : List String) (fs : List String) (d : String)
    (h : d ∈ l ∨ d ∈ fs) : d ∈ List.foldl insertDir fs l := by
  induction l generalizing fs with
  | nil => simpa using h
  | cons a t ih =>
      rcases h with h | h
      · rcases List.mem_cons.mp h with h | h
        · subst h
          exact ih (insertDir fs d) (Or.inr (by unfold insertDir; split <;> simp_all))
        · exact ih (insertDir fs a) (Or.inl h)
      · exact ih (insertDir fs a) (Or.inr (by unfold insertDir; split <;> simp_all))

theorem foldl_insertDir_noop (l : List String) (fs : List String)
    (h : ∀ d ∈ l, d ∈ fs) : List.foldl insertDir fs l = fs := by
  induction l with
  | nil => rfl
  | cons a t ih =>
      have ha : a ∈ fs := h a (List.mem_cons_self a t)
      simp only [List.foldl_cons]
      rw [show insertDir fs a = fs by unfold insertDir; simp [ha]]
      exact ih (fun d hd => h d (List.mem_cons_of_mem a hd))

theorem mkdirAll_mem (fs : List String) (p : String) (d : String)
    (h : d ∈ ancestorPaths p) : d ∈ mkdirAll fs p :=
  mem_foldl_insertDir (ancestorPaths p) fs d (Or.inl h)

theorem mkdirAll_noop (fs : List String) (p : String)
    (h : ∀ d ∈ ancestorPaths p, d ∈ fs) : mkdirAll fs p = fs :=
  foldl_insertDir_noop (ancestorPaths p) fs h

theorem normPath_mem_ancestorPaths (p : String) (h : pathComponents p ≠ []) :
    normPath p ∈ ancestorPaths p := by
  unfold ancestorPaths normPath
  have hlen : 0 < (pathComponents p).length := List.length_pos.mpr h
  refine List.mem_map.mpr ⟨(pathComponents p).length - 1, ?_, ?_⟩
  · exact List.mem_range.mpr (by omega)
  · have : (pathComponents p).length - 1 + 1 = (pathComponents p).length := by omega
    rw [this, List.take_length]

/-- C1: with both required flags present, the destination path passed to
the download routine equals `join(base_dir, output)` where `base_dir` is
the `MODELS_DIR` environment variable when set and `/models` otherwise. -/
theorem claim_C1_resolved_destination (env : Option String) (m o : String)
    (fs : List String) (mk dl : Option String) :
    main_run env (some m) (some o) fs mk dl
      = download_model m
          (os_path_join (match env with | some d => d | none => "/models") o)
          fs mk dl := by
  cases env <;> rfl

/-- C2: when the delegated snapshot-download call raises an error, the run
prints `Error downloading {model}: {cause}` and exits with status 1. -/
theorem claim_C2_download_error (env : Option String) (m o cause : String)
    (fs : List String) :
    (main_run env (some m) (some o) fs none (some cause)).exitCode = 1
    ∧ Event.print s!"Error downloading {m}: {cause}"
        ∈ (main_run env (some m) (some o) fs none (some cause)).events := by
  constructor
  · rfl
  · simp [main_run, download_model]

/-- C3: when the delegated snapshot-download call succeeds, the run prints
`Successfully downloaded {model}` and exits with status 0. -/
theorem claim_C3_download_success (env : Option String) (m o : String)
    (fs : List String) :
    (main_run env (some m) (some o) fs none none).exitCode = 0
    ∧ Event.print s!"Successfully downloaded {m}"
        ∈ (main_run env (some m) (some o) fs none none).events := by
  constructor
  · rfl
  · simp [main_run, download_model]

/-- C4: when the destination does not yet exist, the run creates it and
every missing ancestor directory, and the creation call occurs strictly
before the delegated snapshot-download call in the event trace. -/
theorem claim_C4_mkdir_before_download (env : Option String) (m o : String)
    (fs : List String) (dl : Option String)
    (_h : dirExists fs (resolvedDest env o) = false) :
    (∀ d ∈ ancestorPaths (resolvedDest env o),
        d ∈ (main_run env (some m) (some o) fs none dl).fs)
    ∧ (pathComponents (resolvedDest env o) ≠ [] →
        dirExists (main_run env (some m) (some o) fs none dl).fs
          (resolvedDest env o) = true)
    ∧ (∃ i j : Nat, i < j
        ∧ (main_run env (some m) (some o) fs none dl).events[i]?
            = some (Event.mkdirCall (resolvedDest env o))
        ∧ (main_run env (some m) (some o) fs none dl).events[j]?
            = some (Event.snapshotDownload m (resolvedDest env o) false true)) := by
  rw [main_run_some]
  refine ⟨?_, ?_, ?_⟩
  · intro d hd
    cases dl <;> exact mkdirAll_mem fs (resolvedDest env o) d hd
  · intro hne
    have hmem : normPath (resolvedDest env o)
        ∈ mkdirAll fs (resolvedDest env o) :=
      mkdirAll_mem fs (resolvedDest env o) (normPath (resolvedDest env o))
        (normPath_mem_ancestorPaths (resolvedDest env o) hne)
    cases dl <;> simpa [download_model, dirExists] using hmem
  · cases dl <;> exact ⟨1, 2, by omega, rfl, rfl⟩

/-- C4 witness: a concrete run with `MODELS_DIR=/data`, `--output whisper`
on an empty filesystem. -/
theorem claim_C4_mkdir_before_download_witness :
    (∀ d ∈ ancestorPaths (resolvedDest (some "/data") "whisper"),
        d ∈ (main_run (some "/data") (some "org/mod") (some "whisper") [] none none).fs)
    ∧ (pathComponents (resolvedDest (some "/data") "whisper") ≠ [] →
        dirExists (main_run (some "/data") (some "org/mod") (some "whisper") [] none none).fs
          (resolvedDest (some "/data") "whisper") = true)
    ∧ (∃ i j : Nat, i < j
        ∧ (main_run (some "/data") (some "org/mod") (some "whisper") [] none none).events[i]?
            = some (Event.mkdirCall (resolvedDest (some "/data") "whisper"))
        ∧ (main_run (some "/data") (some "org/mod") (some "whisper") [] none none).events[j]?
            = some (Event.snapshotDownload "org/mod" (resolvedDest (some "/data") "whisper")
                false true)) :=
  claim_C4_mkdir_before_download (some "/data") "org/mod" "whisper" [] none
    (by decide)

/-- C5: when the destination directory (hence, on a real filesystem, each
of its ancestors) already exists, the creation step changes nothing and the
run does not fail: with a successful download it exits with status 0. -/
theorem claim_C5_mkdir_noop (env : Option String) (m o : String)
    (fs : List String) (dl : Option String)
    (h : ∀ d ∈ ancestorPaths (resolvedDest env o), d ∈ fs) :
    (main_run env (some m) (some o) fs none dl).fs = fs
    ∧ (dl = none → (main_run env (some m) (some o) fs none dl).exitCode = 0) := by
  rw [main_run_some]
  constructor
  · cases dl <;> simp [download_model, mkdirAll_noop fs (resolvedDest env o) h]
  · intro hdl
    subst hdl
    rfl

/-- C5 witness: a concrete run where the destination `/data/whisper` and
its ancestor `/data` already exist. -/
theorem claim_C5_mkdir_noop_witness :
    (main_run (some "/data") (some "org/mod") (some "whisper")
        ["/data", "/data/whisper"] none none).fs = ["/data", "/data/whisper"]
    ∧ (none = (none : Option String) →
        (main_run (some "/data") (some "org/mod") (some "whisper")
          ["/data", "/data/whisper"] none none).exitCode = 0) :=
  claim_C5_mkdir_noop (some "/data") "org/mod" "whisper"
    ["/data", "/data/whisper"] none (by decide)

/-- C6: whenever the delegated snapshot-download call appears in a run's
trace, it carries the model identifier as `repo_id`, the resolved
destination as `local_dir`, `local_dir_use_symlinks=False` and
`resume_download=True`. -/
theorem claim_C6_delegate_arguments (env : Option String) (m o : String)
    (fs : List String) (mk dl : Option String)
    (repo dir : String) (sym res : Bool)
    (h : Event.snapshotDownload repo dir sym res
        ∈ (main_run env (some m) (some o) fs mk dl).events) :
    repo = m ∧ dir = resolvedDest env o ∧ sym = false ∧ res = true := by
  rw [main_run_some] at h
  cases mk <;> cases dl <;> simp [download_model] at h <;> simp_all

/-- C6 witness: the delegate call of a concrete successful run carries
exactly these arguments. -/
theorem claim_C6_delegate_arguments_witness :
    "org/mod" = "org/mod" ∧ "/data/whisper" = resolvedDest (some "/data") "whisper"
    ∧ false = false ∧ true = true :=
  claim_C6_delegate_arguments (some "/data") "org/mod" "whisper" [] none none
    "org/mod" "/data/whisper" false true (by decide)

/-- C7: omitting `--model` or `--output` makes the run exit with a
non-zero status during argument parsing, with no event at all: no
directory creation and no delegated download. -/
theorem claim_C7_missing_flag (env : Option String)
    (modelArg outputArg : Option String) (fs : List String)
    (mk dl : Option String)
    (h : modelArg = none ∨ outputArg = none) :
    (main_run env modelArg outputArg fs mk dl).exitCode ≠ 0
    ∧ (main_run env modelArg outputArg fs mk dl).events = []
    ∧ (main_run env modelArg outputArg fs mk dl).fs = fs := by
  rcases h with h | h
  · subst h
    cases outputArg <;> simp [main_run]
  · subst h
    cases modelArg <;> simp [main_run]

/-- C7 witness: omitting `--output` on a concrete run exits non-zero with
no effects. -/
theorem claim_C7_missing_flag_witness :
    (main_run none (some "org/mod") none [] none none).exitCode ≠ 0
    ∧ (main_run none (some "org/mod") none [] none none).events = []
    ∧ (main_run none (some "org/mod") none [] none none).fs = [] :=
  claim_C7_missing_flag none (some "org/mod") none [] none none (Or.inr rfl)

/-- C8: in every possible run, the delegated snapshot-download call occurs
at most once in the trace: the tool never retries a download. -/
theorem claim_C8_no_retry (env : Option String)
    (modelArg outputArg : Option String) (fs : List String)
    (mk dl : Option String) :
    ((main_run env modelArg outputArg fs mk dl).events.filter
        isSnapshotCall).length ≤ 1 := by
  cases modelArg <;> cases outputArg <;> cases mk <;> cases dl <;>
    simp [main_run, download_model, isSnapshotCall]

/-- C9: when the directory-creation call raises an error, the same error
boundary catches it: the run prints `Error downloading {model}: {cause}`,
exits with status 1, and never invokes the download delegate. -/
theorem claim_C9_mkdir_error (env : Option String) (m o cause : String)
    (fs : List String) (dl : Option String) :
    (main_run env (some m) (some o) fs (some cause) dl).exitCode = 1
    ∧ Event.print s!"Error downloading {m}: {cause}"
        ∈ (main_run env (some m) (some o) fs (some cause) dl).events
    ∧ (main_run env (some m) (some o) fs (some cause) dl).events.filter
        isSnapshotCall = [] := by
  refine ⟨rfl, ?_, ?_⟩
  · simp [main_run, download_model]
  · simp [main_run, download_model, isSnapshotCall]

/-- C10: the destination the run attempts depends only on the environment
and `--output`, never on `--model` (two runs differing in the model, the
filesystem, and the oracles attempt the same directory); and when
`--output` is absolute, the join discards the base directory and the
destination is the `--output` value alone. -/
theorem claim_C10_dest_independent_of_model (env : Option String)
    (m1 m2 o : String) (fs1 fs2 : List String)
    (mk1 dl1 mk2 dl2 : Option String) :
    destOf (main_run env (some m1) (some o) fs1 mk1 dl1)
      = destOf (main_run env (some m2) (some o) fs2 mk2 dl2)
    ∧ (startsWithSlash o = true →
        destOf (main_run env (some m1) (some o) fs1 mk1 dl1) = some o) := by
  have hdest : ∀ (m : String) (fs : List String) (mk dl : Option String),
      destOf (main_run env (some m) (some o) fs mk dl)
        = some (resolvedDest env o) := by
    intro m fs mk dl
    rw [main_run_some]
    cases mk <;> cases dl <;>
      simp [download_model, destOf, List.findSome?]
  constructor
  · rw [hdest m1 fs1 mk1 dl1, hdest m2 fs2 mk2 dl2]
  · intro habs
    rw [hdest m1 fs1 mk1 dl1]
    unfold resolvedDest os_path_join
    simp [habs]

/-- C10 witness: with an absolute `--output /abs`, a concrete run attempts
exactly the directory `/abs`, for either model argument. -/
theorem claim_C10_dest_independent_of_model_witness :
    (destOf (main_run (some "/data") (some "m1") (some "/abs") [] none none)
      = destOf (main_run (some "/data") (some "m2") (some "/abs") ["/x"] (some "boom") none))
    ∧ (startsWithSlash "/abs" = true →
        destOf (main_run (some "/data") (some "m1") (some "/abs") [] none none)
          = some "/abs") :=
  claim_C10_dest_independent_of_model (some "/data") "m1" "m2" "/abs" [] ["/x"]
    none none (some "boom") none
